import Mathlib

/-!
# Verification of the Thrift JSON / JSON-RPC codecs

A shallow embedding of the C++ sources
`lib/cpp/src/thrift/protocol/TJSONUtils.cpp`,
`lib/cpp/src/thrift/protocol/TJSONProtocol.cpp` and
`lib/cpp/src/thrift/protocol/TJSONRPCProtocol.cpp`.

Bytes are modelled as natural numbers (the byte values); byte strings as
`List Nat`.  Stateful C++ code is modelled by explicit state passing; C++
exceptions are modelled by an error-or-value result that also carries the
state of the object at the moment the exception escapes.  Loops that are
not structurally recursive in the C++ source are given an explicit fuel
parameter; every theorem below either fixes a fuel that provably covers
the execution or quantifies over sufficient fuel.
-/

namespace ThriftJSON

/-- Byte value of the opening brace. -/
def kJSONObjectStart : Nat := 123

/-- Byte value of the closing brace. -/
def kJSONObjectEnd : Nat := 125

/-- Byte value of the opening bracket. -/
def kJSONArrayStart : Nat := 91

/-- Byte value of the closing bracket. -/
def kJSONArrayEnd : Nat := 93

/-- Byte value of the colon. -/
def kJSONPairSeparator : Nat := 58

/-- Byte value of the comma. -/
def kJSONElemSeparator : Nat := 44

/-- Byte value of the backslash. -/
def kJSONBackslash : Nat := 92

/-- Byte value of the double quote. -/
def kJSONStringDelimiter : Nat := 34

/-- Byte value of the letter u. -/
def kJSONEscapeChar : Nat := 117

/-- Byte string of a Lean string literal (used only for ASCII data). -/
def strBytes (s : String) : List Nat := s.toList.map Char.toNat

/-- Source `hexChar` from TJSONUtils.cpp: hex digit for the low nibble of `val`. -/
def hexChar (val : Nat) : Nat :=
  let v := val % 16
  if v < 10 then v + 48 else v - 10 + 97

/-- Source `hexVal` from TJSONUtils.cpp: value of a `[0-9a-f]` digit, or none
(the C++ code raises INVALID_DATA). -/
def hexVal (ch : Nat) : Option Nat :=
  if 48 ≤ ch ∧ ch ≤ 57 then some (ch - 48)
  else if 97 ≤ ch ∧ ch ≤ 102 then some (ch - 97 + 10)
  else none

/-- Source `isJSONNumeric` from TJSONUtils.cpp: true for `[-+0-9.Ee]`. -/
def isJSONNumeric (ch : Nat) : Bool :=
  ch = 43 ∨ ch = 45 ∨ ch = 46 ∨ (48 ≤ ch ∧ ch ≤ 57) ∨ ch = 69 ∨ ch = 101

/-- Source `isHighSurrogate` from TJSONUtils.cpp. -/
def isHighSurrogate (val : Nat) : Bool := 0xD800 ≤ val ∧ val ≤ 0xDBFF

/-- Source `isLowSurrogate` from TJSONUtils.cpp. -/
def isLowSurrogate (val : Nat) : Bool := 0xDC00 ≤ val ∧ val ≤ 0xDFFF

/-!
## Base64

`base64_encode` / `base64_decode` live in `TBase64Utils.h`, which is not
part of the sources under verification; `writeBase64` / `readBase64` in
`TJSONUtils.cpp` call them.
-/

/-- Modelled from the spec: the standard Base64 alphabet used by the
`base64_encode` helper that `writeBase64` calls 3 input bytes at a time
("consume input bytes in 3-byte groups, encoding each to 4 Base64
bytes"). Index `i < 64` to its Base64 character. -/
def b64chr (i : Nat) : Nat :=
  if i < 26 then 65 + i
  else if i < 52 then 97 + (i - 26)
  else if i < 62 then 48 + (i - 52)
  else if i = 62 then 43
  else 47

/-- Modelled from the spec: inverse Base64 table used by the
`base64_decode` helper that `readBase64` calls ("Decode 4-byte groups
into 3 bytes each"). -/
def b64val (c : Nat) : Nat :=
  if 65 ≤ c ∧ c ≤ 90 then c - 65
  else if 97 ≤ c ∧ c ≤ 122 then c - 97 + 26
  else if 48 ≤ c ∧ c ≤ 57 then c - 48 + 52
  else if c = 43 then 62
  else if c = 47 then 63
  else 0

/-- Modelled from the spec: `base64_encode` on a full 3-byte group
produces 4 Base64 bytes. -/
def b64enc3 (a b c : Nat) : List Nat :=
  [b64chr (a / 4), b64chr ((a % 4) * 16 + b / 16),
   b64chr ((b % 16) * 4 + c / 64), b64chr (c % 64)]

/-- Modelled from the spec: `base64_encode` on a trailing 2-byte
remainder produces 3 Base64 bytes (no padding). -/
def b64enc2 (a b : Nat) : List Nat :=
  [b64chr (a / 4), b64chr ((a % 4) * 16 + b / 16), b64chr ((b % 16) * 4)]

/-- Modelled from the spec: `base64_encode` on a trailing 1-byte
remainder produces 2 Base64 bytes (no padding). -/
def b64enc1 (a : Nat) : List Nat :=
  [b64chr (a / 4), b64chr ((a % 4) * 16)]

/-- The Base64 payload `writeBase64` emits between the quotes: the
`while (len >= 3)` loop encodes 3-byte groups, then the `if (len)`
branch encodes the 1- or 2-byte remainder. -/
def base64EncodeAll : List Nat → List Nat
  | a :: b :: c :: rest => b64enc3 a b c ++ base64EncodeAll rest
  | [a, b] => b64enc2 a b
  | [a] => b64enc1 a
  | [] => []

/-- Modelled from the spec: `base64_decode` on a 4-byte group yields 3
bytes. -/
def b64dec4 (w x y z : Nat) : List Nat :=
  [(b64val w) * 4 + (b64val x) / 16,
   ((b64val x) % 16) * 16 + (b64val y) / 4,
   ((b64val y) % 4) * 64 + b64val z]

/-- Modelled from the spec: `base64_decode` on a trailing 3-byte
remainder yields 2 bytes. -/
def b64dec3 (w x y : Nat) : List Nat :=
  [(b64val w) * 4 + (b64val x) / 16,
   ((b64val x) % 16) * 16 + (b64val y) / 4]

/-- Modelled from the spec: `base64_decode` on a trailing 2-byte
remainder yields 1 byte. -/
def b64dec2 (w x : Nat) : List Nat :=
  [(b64val w) * 4 + (b64val x) / 16]

/-- The decoding loop of `readBase64` after padding stripping: the
`while (len >= 4)` loop, then the `if (len > 1)` remainder; a single
leftover byte is silently dropped. -/
def base64DecodeAll : List Nat → List Nat
  | w :: x :: y :: z :: rest => b64dec4 w x y z ++ base64DecodeAll rest
  | [w, x, y] => b64dec3 w x y
  | [w, x] => b64dec2 w x
  | _ => []

/-- The byte the expression `b[i]` denotes in `readBase64`, where `b`
points at the contents of a `std::string` of length `s.length`: inside
the string it is the stored byte, at index `s.length` it is the
terminating NUL of `c_str()`, and beyond that it is whatever byte sits
in memory (the `oob` parameter). -/
def byteAt (oob : Nat → Nat) (s : List Nat) (i : Nat) : Nat :=
  if h : i < s.length then s.get ⟨i, h⟩
  else if i = s.length then 0
  else oob i

/-- The padding-stripping `for` loop of `readBase64`, byte-faithful to
the `uint32_t` arithmetic: `i` lives modulo `2 ^ 32`, the condition
`i >= bound && b[i] == '='` short-circuits (so `b[i]` is only read when
`i >= bound`), the body decrements `len`, and the update step computes
`--i` with unsigned wraparound.  Returns the final `len` together with
the list of indices `i` at which `b[i]` was read.  The `fuel` bounds the
number of condition evaluations; fuel 3 covers every execution in which
the loop exits by its own condition within two strips. -/
def stripLoop (oob : Nat → Nat) (s : List Nat) (bound : Nat) :
    Nat → Nat → Nat → Nat × List Nat
  | 0, _, len => (len, [])
  | fuel + 1, i, len =>
    if i ≥ bound then
      if byteAt oob s i = 61 then
        let r := stripLoop oob s bound fuel ((i + (2 ^ 32 - 1)) % 2 ^ 32) (len - 1)
        (r.1, i :: r.2)
      else (len, [i])
    else (len, [])

/-- The `// Ignore padding` block of `readBase64`: when `len >= 2`,
run the stripping loop with `bound = len - 2` starting at `i = len - 1`;
otherwise `len` is left unchanged. -/
def stripPadRun (oob : Nat → Nat) (s : List Nat) : Nat × List Nat :=
  if s.length ≥ 2 then
    stripLoop oob s (s.length - 2) 3 (s.length - 1) s.length
  else (s.length, [])

/-- The byte count `readBase64` keeps after `// Ignore padding`. -/
def stripPadLen (s : List Nat) : Nat := (stripPadRun (fun _ => 0) s).1

/-- Source `readBase64` after the string contents have been read: strip the
padding, then decode. -/
def readBase64Core (s : List Nat) : List Nat :=
  base64DecodeAll (s.take (stripPadLen s))

/-- The `=` padding `readBase64` tolerates for an encoding of `bs`:
two pad bytes for a 1-byte remainder, one for a 2-byte remainder. -/
def stdB64Pad (bs : List Nat) : List Nat :=
  if bs.length % 3 = 1 then [61, 61]
  else if bs.length % 3 = 2 then [61]
  else []

theorem b64val_b64chr : ∀ i, i < 64 → b64val (b64chr i) = i := by decide

theorem b64chr_ne_pad : ∀ i, i < 64 → b64chr i ≠ 61 := by decide

theorem b64chr_plain : ∀ i, i < 64 → b64chr i ≠ 34 ∧ b64chr i ≠ 92 := by decide

/-- Core Base64 round trip: decoding the unpadded encoding of any byte
sequence recovers the sequence. -/
theorem base64_decode_encode : ∀ bs : List Nat, (∀ b ∈ bs, b < 256) →
    base64DecodeAll (base64EncodeAll bs) = bs
  | [], _ => rfl
  | [a], h => by
    have ha : a < 256 := h a (by simp)
    have h1 : a / 4 < 64 := by omega
    have h2 : (a % 4) * 16 < 64 := by omega
    simp only [base64EncodeAll, b64enc1, base64DecodeAll, b64dec2,
      b64val_b64chr _ h1, b64val_b64chr _ h2]
    congr 1
    omega
  | [a, b], h => by
    have ha : a < 256 := h a (by simp)
    have hb : b < 256 := h b (by simp)
    have h1 : a / 4 < 64 := by omega
    have h2 : (a % 4) * 16 + b / 16 < 64 := by omega
    have h3 : (b % 16) * 4 < 64 := by omega
    simp only [base64EncodeAll, b64enc2, base64DecodeAll, b64dec3,
      b64val_b64chr _ h1, b64val_b64chr _ h2, b64val_b64chr _ h3]
    congr 1
    · omega
    congr 1
    omega
  | a :: b :: c :: rest, h => by
    have ha : a < 256 := h a (by simp)
    have hb : b < 256 := h b (by simp)
    have hc : c < 256 := h c (by simp)
    have h1 : a / 4 < 64 := by omega
    have h2 : (a % 4) * 16 + b / 16 < 64 := by omega
    have h3 : (b % 16) * 4 + c / 64 < 64 := by omega
    have h4 : c % 64 < 64 := by omega
    have ih := base64_decode_encode rest (fun x hx => h x (by simp [hx]))
    simp only [base64EncodeAll, b64enc3, List.cons_append, List.nil_append,
      base64DecodeAll, b64dec4,
      b64val_b64chr _ h1, b64val_b64chr _ h2, b64val_b64chr _ h3,
      b64val_b64chr _ h4, ih]
    congr 1
    · omega
    congr 1
    · omega
    congr 1
    omega

/-- Every byte of the emitted Base64 payload is in the 64-character
alphabet. -/
theorem base64EncodeAll_mem : ∀ bs : List Nat, (∀ b ∈ bs, b < 256) →
    ∀ ch ∈ base64EncodeAll bs, ∃ i, i < 64 ∧ ch = b64chr i
  | [], _ => by simp [base64EncodeAll]
  | [a], h => by
    have ha : a < 256 := h a (by simp)
    intro ch hch
    simp only [base64EncodeAll, b64enc1, List.mem_cons, List.not_mem_nil,
      or_false] at hch
    rcases hch with h1 | h1
    · exact ⟨a / 4, by omega, h1⟩
    · exact ⟨(a % 4) * 16, by omega, h1⟩
  | [a, b], h => by
    have ha : a < 256 := h a (by simp)
    have hb : b < 256 := h b (by simp)
    intro ch hch
    simp only [base64EncodeAll, b64enc2, List.mem_cons, List.not_mem_nil,
      or_false] at hch
    rcases hch with h1 | h1 | h1
    · exact ⟨a / 4, by omega, h1⟩
    · exact ⟨(a % 4) * 16 + b / 16, by omega, h1⟩
    · exact ⟨(b % 16) * 4, by omega, h1⟩
  | a :: b :: c :: rest, h => by
    have ha : a < 256 := h a (by simp)
    have hb : b < 256 := h b (by simp)
    have hc : c < 256 := h c (by simp)
    intro ch hch
    simp only [base64EncodeAll, b64enc3, List.cons_append, List.nil_append,
      List.mem_cons] at hch
    rcases hch with h1 | h1 | h1 | h1 | h1
    · exact ⟨a / 4, by omega, h1⟩
    · exact ⟨(a % 4) * 16 + b / 16, by omega, h1⟩
    · exact ⟨(b % 16) * 4 + c / 64, by omega, h1⟩
    · exact ⟨c % 64, by omega, h1⟩
    · exact base64EncodeAll_mem rest (fun x hx => h x (by simp [hx])) ch h1

theorem base64EncodeAll_no_pad (bs : List Nat) (h : ∀ b ∈ bs, b < 256) :
    61 ∉ base64EncodeAll bs := by
  intro hmem
  obtain ⟨i, hi, hchr⟩ := base64EncodeAll_mem bs h 61 hmem
  exact b64chr_ne_pad i hi hchr.symm

theorem base64EncodeAll_length_le : ∀ bs : List Nat,
    (base64EncodeAll bs).length ≤ 2 * bs.length
  | [] => by simp [base64EncodeAll]
  | [a] => by simp [base64EncodeAll, b64enc1]
  | [a, b] => by simp [base64EncodeAll, b64enc2]
  | a :: b :: c :: rest => by
    have ih := base64EncodeAll_length_le rest
    simp only [base64EncodeAll, b64enc3, List.length_append, List.length_cons]
    simp only [List.length_cons, List.length_nil]
    omega

/-- The loop body taken: `b[i]` read when `i >= bound`, found `=`,
`len` decremented, `i` decremented with unsigned wraparound. -/
theorem stripLoop_step (oob : Nat → Nat) (s : List Nat)
    (bound fuel i len : Nat) (hge : bound ≤ i) (hb : byteAt oob s i = 61) :
    stripLoop oob s bound (fuel + 1) i len =
      ((stripLoop oob s bound fuel ((i + (2 ^ 32 - 1)) % 2 ^ 32) (len - 1)).1,
       i :: (stripLoop oob s bound fuel
         ((i + (2 ^ 32 - 1)) % 2 ^ 32) (len - 1)).2) := by
  simp [stripLoop, hge, hb]

/-- The loop stops because `b[i]` is not `=` (after reading it). -/
theorem stripLoop_stop (oob : Nat → Nat) (s : List Nat)
    (bound fuel i len : Nat) (hge : bound ≤ i) (hb : byteAt oob s i ≠ 61) :
    stripLoop oob s bound (fuel + 1) i len = (len, [i]) := by
  simp [stripLoop, hge, hb]

/-- The loop stops on the bound check alone; `b[i]` is not read. -/
theorem stripLoop_exit (oob : Nat → Nat) (s : List Nat)
    (bound fuel i len : Nat) (hlt : i < bound) :
    stripLoop oob s bound (fuel + 1) i len = (len, []) := by
  simp [stripLoop]
  omega

theorem byteAt_in (oob : Nat → Nat) (s : List Nat) (i : Nat)
    (h : i < s.length) : byteAt oob s i = s.getD i 0 := by
  simp [byteAt, h, List.getD_eq_getElem?_getD, List.getElem?_eq_getElem h]

/-- If the last stored byte is not `=`, the stripping loop exits on its
first condition check and keeps the whole string. -/
theorem stripPadLen_no_pad (s : List Nat)
    (h : s.getD (s.length - 1) 0 ≠ 61) : stripPadLen s = s.length := by
  unfold stripPadLen stripPadRun
  by_cases h2 : s.length ≥ 2
  · have hb : byteAt (fun _ => 0) s (s.length - 1) ≠ 61 := by
      rw [byteAt_in _ _ _ (by omega)]
      exact h
    rw [if_pos h2, show (3 : Nat) = 2 + 1 from rfl,
      stripLoop_stop _ _ _ _ _ _ (by omega) hb]
  · rw [if_neg h2]

/-- One trailing `=` after a string whose own last byte is not `=` is
stripped, and nothing else. -/
theorem stripPadLen_one_pad (s : List Nat) (h1 : 1 ≤ s.length)
    (hlen : s.length + 1 < 2 ^ 32)
    (h : s.getD (s.length - 1) 0 ≠ 61) :
    stripPadLen (s ++ [61]) = s.length := by
  unfold stripPadLen stripPadRun
  have hL : (s ++ [61]).length = s.length + 1 := by simp
  rw [if_pos (by omega), hL,
    show s.length + 1 - 2 = s.length - 1 from by omega,
    show s.length + 1 - 1 = s.length from by omega]
  have hb1 : byteAt (fun _ => 0) (s ++ [61]) s.length = 61 := by
    rw [byteAt_in _ _ _ (by simp),
      List.getD_append_right _ _ _ _ (le_refl _)]
    simp
  have hmod : (s.length + (2 ^ 32 - 1)) % 2 ^ 32 = s.length - 1 := by
    rw [show s.length + (2 ^ 32 - 1) = (s.length - 1) + 2 ^ 32 from by omega,
      Nat.add_mod_right, Nat.mod_eq_of_lt (by omega)]
  have hb2 : byteAt (fun _ => 0) (s ++ [61]) (s.length - 1) ≠ 61 := by
    rw [byteAt_in _ _ _ (by simp; omega),
      List.getD_append _ _ _ _ (by omega)]
    exact h
  rw [show (3 : Nat) = 2 + 1 from rfl,
    stripLoop_step _ _ _ _ _ _ (by omega) hb1, hmod,
    show s.length + 1 - 1 = s.length from by omega,
    show (2 : Nat) = 1 + 1 from rfl,
    stripLoop_stop _ _ _ _ _ _ (by omega) hb2]

/-- Two trailing `=` after a nonempty string are both stripped and the
loop then exits on its bound check, touching only stored bytes. -/
theorem stripPadLen_two_pad (s : List Nat) (h1 : 1 ≤ s.length)
    (hlen : s.length + 2 < 2 ^ 32) :
    stripPadLen (s ++ [61, 61]) = s.length := by
  unfold stripPadLen stripPadRun
  have hL : (s ++ [61, 61]).length = s.length + 2 := by simp
  rw [if_pos (by omega), hL,
    show s.length + 2 - 2 = s.length from by omega,
    show s.length + 2 - 1 = s.length + 1 from by omega]
  have hb1 : byteAt (fun _ => 0) (s ++ [61, 61]) (s.length + 1) = 61 := by
    rw [byteAt_in _ _ _ (by simp),
      List.getD_append_right _ _ _ _ (by omega)]
    simp
  have hmod1 : (s.length + 1 + (2 ^ 32 - 1)) % 2 ^ 32 = s.length := by
    rw [show s.length + 1 + (2 ^ 32 - 1) = s.length + 2 ^ 32 from by omega,
      Nat.add_mod_right, Nat.mod_eq_of_lt (by omega)]
  have hb2 : byteAt (fun _ => 0) (s ++ [61, 61]) s.length = 61 := by
    rw [byteAt_in _ _ _ (by simp),
      List.getD_append_right _ _ _ _ (le_refl _)]
    simp
  have hmod2 : (s.length + (2 ^ 32 - 1)) % 2 ^ 32 = s.length - 1 := by
    rw [show s.length + (2 ^ 32 - 1) = (s.length - 1) + 2 ^ 32 from by omega,
      Nat.add_mod_right, Nat.mod_eq_of_lt (by omega)]
  rw [show (3 : Nat) = 2 + 1 from rfl,
    stripLoop_step _ _ _ _ _ _ (by omega) hb1, hmod1,
    show s.length + 2 - 1 = s.length + 1 from by omega,
    show (2 : Nat) = 1 + 1 from rfl,
    stripLoop_step _ _ _ _ _ _ (by omega) hb2, hmod2,
    show s.length + 1 - 1 = s.length from by omega,
    show (1 : Nat) = 0 + 1 from rfl,
    stripLoop_exit _ _ _ _ _ _ (by omega)]

theorem base64EncodeAll_ne_nil : ∀ bs : List Nat, bs ≠ [] →
    base64EncodeAll bs ≠ []
  | [], h => absurd rfl h
  | [_], _ => by simp [base64EncodeAll, b64enc1]
  | [_, _], _ => by simp [base64EncodeAll, b64enc2]
  | _ :: _ :: _ :: _, _ => by simp [base64EncodeAll, b64enc3]

theorem base64EncodeAll_last_ne_pad (bs : List Nat)
    (h : ∀ b ∈ bs, b < 256) :
    (base64EncodeAll bs).getD ((base64EncodeAll bs).length - 1) 0 ≠ 61 := by
  by_cases he : base64EncodeAll bs = []
  · simp [he]
  · have hlt : (base64EncodeAll bs).length - 1 < (base64EncodeAll bs).length := by
      have := List.length_pos.mpr he
      omega
    rw [List.getD_eq_getElem?_getD, List.getElem?_eq_getElem hlt]
    simp only [Option.getD_some]
    intro hcontra
    exact base64EncodeAll_no_pad bs h (hcontra ▸ List.getElem_mem hlt)

/-- Unpadded round trip at the level of `readBase64`'s post-string
processing: stripping touches nothing and decoding inverts encoding. -/
theorem readBase64Core_encode (bs : List Nat) (h : ∀ b ∈ bs, b < 256) :
    readBase64Core (base64EncodeAll bs) = bs := by
  unfold readBase64Core
  rw [stripPadLen_no_pad _ (base64EncodeAll_last_ne_pad bs h),
    List.take_length, base64_decode_encode bs h]

/-- Padded round trip: appending the conventional `=` padding to the
emitted encoding decodes to the same bytes. -/
theorem readBase64Core_encode_pad (bs : List Nat) (h : ∀ b ∈ bs, b < 256)
    (hlen : bs.length < 2 ^ 30) :
    readBase64Core (base64EncodeAll bs ++ stdB64Pad bs) = bs := by
  have hle := base64EncodeAll_length_le bs
  unfold readBase64Core stdB64Pad
  by_cases h1 : bs.length % 3 = 1
  · have hne : bs ≠ [] := by intro hc; rw [hc] at h1; simp at h1
    have henc := base64EncodeAll_ne_nil bs hne
    have hpos : 1 ≤ (base64EncodeAll bs).length := List.length_pos.mpr henc
    rw [if_pos h1, stripPadLen_two_pad _ hpos (by omega),
      List.take_left, base64_decode_encode bs h]
  · by_cases h2 : bs.length % 3 = 2
    · have hne : bs ≠ [] := by intro hc; rw [hc] at h2; simp at h2
      have henc := base64EncodeAll_ne_nil bs hne
      have hpos : 1 ≤ (base64EncodeAll bs).length := List.length_pos.mpr henc
      rw [if_neg h1, if_pos h2,
        stripPadLen_one_pad _ hpos (by omega)
          (base64EncodeAll_last_ne_pad bs h),
        List.take_left, base64_decode_encode bs h]
    · rw [if_neg h1, if_neg h2, List.append_nil,
        stripPadLen_no_pad _ (base64EncodeAll_last_ne_pad bs h),
        List.take_length, base64_decode_encode bs h]

/-!
## Errors, types, contexts
-/

/-- Source `TProtocolException` kinds raised by the codec, plus transport
exhaustion (`TTransportException` on `readAll`) and an artificial
`fuelOut` marker used only when a loop's fuel runs out (no real
execution maps to it, so an `ok` result certifies real behavior). -/
inductive PErr
  | badVersion
  | invalidData
  | sizeLimit
  | notImplemented
  | eof
  | fuelOut
deriving DecidableEq

/-- The Thrift `TType` tags handled by the codec. -/
inductive TType
  | stop
  | tBool
  | tByte
  | tI16
  | tI32
  | tI64
  | tDouble
  | tString
  | tStruct
  | tMap
  | tSet
  | tList
deriving DecidableEq

/-- Source `TMessageType` enumerator values. -/
def T_CALL : Int := 1

/-- Source `TMessageType` enumerator values. -/
def T_REPLY : Int := 2

/-- Source `TMessageType` enumerator values. -/
def T_EXCEPTION : Int := 3

/-- Source `TMessageType` enumerator values. -/
def T_ONEWAY : Int := 4

/-- The three context variants of TJSONUtils: `TJSONContext` (bare),
`TJSONPairContext` (`first_`, `colon_`), `TJSONListContext`
(`first_`). -/
inductive CtxKind
  | bare
  | pair (first colon : Bool)
  | listC (first : Bool)
deriving DecidableEq

/-- A context together with its own one-byte `LookaheadReader` state
(each `TJSONContext` owns a fresh reader over the shared transport). -/
structure Ctx where
  kind : CtxKind
  la : Option Nat
deriving DecidableEq

/-- Source `writeNext` of the three context variants: the separator bytes
emitted before the next element, and the successor state. -/
def ctxWriteNext : CtxKind → List Nat × CtxKind
  | .bare => ([], .bare)
  | .pair true _ => ([], .pair false true)
  | .pair false c =>
    ([if c then kJSONPairSeparator else kJSONElemSeparator], .pair false (!c))
  | .listC true => ([], .listC false)
  | .listC false => ([kJSONElemSeparator], .listC false)

/-- Source `escapeNum` of the three variants: only a pair context in key
position quotes numbers. -/
def ctxEscapeNum : CtxKind → Bool
  | .pair _ c => c
  | _ => false

/-- Opening delimiter written by `writeStart` of each variant. -/
def ctxOpener : CtxKind → Nat
  | .listC _ => kJSONArrayStart
  | _ => kJSONObjectStart

/-- Closing delimiter written by `writeEnd` of each variant. -/
def ctxCloser : CtxKind → Nat
  | .listC _ => kJSONArrayEnd
  | _ => kJSONObjectEnd

/-- Source `readNext` of the three variants: the separator byte the context
expects before the next element (none on the first element), and the
successor state.  The state is advanced before the separator is
checked, exactly as `colon_ = !colon_` precedes `readSyntaxChar`. -/
def ctxReadNext : CtxKind → Option Nat × CtxKind
  | .bare => (none, .bare)
  | .pair true _ => (none, .pair false true)
  | .pair false c =>
    (some (if c then kJSONPairSeparator else kJSONElemSeparator),
     .pair false (!c))
  | .listC true => (none, .listC false)
  | .listC false => (some kJSONElemSeparator, .listC false)

/-!
## Pure write-side primitives
-/

/-- Decimal digits of a natural number. -/
def natDec (n : Nat) : List Nat := (Nat.toDigits 10 n).map Char.toNat

/-- Source `boost::lexical_cast<std::string>` of an integer. -/
def intDec (i : Int) : List Nat :=
  if i < 0 then 45 :: natDec i.natAbs else natDec i.toNat

/-- Source `kJSONCharTable` of TJSONUtils.cpp: handling for bytes below 0x30
(0 = `\u00xx` escape, 1 = verbatim, other = backslash escape). -/
def kJSONCharTable : List Nat :=
  [0, 0, 0, 0, 0, 0, 0, 0, 98, 116, 110, 0, 102, 114, 0, 0,
   0, 0, 0, 0, 0, 0, 0, 0, 0, 0, 0, 0, 0, 0, 0, 0,
   1, 1, 34, 1, 1, 1, 1, 1, 1, 1, 1, 1, 1, 1, 1, 1]

/-- Source `writeEscapeChar`: the 6-byte `\u00xx` escape of a byte. -/
def jsonEscapeChar (ch : Nat) : List Nat :=
  [92, 117, 48, 48, hexChar (ch / 16), hexChar ch]

/-- Source `writeChar`: the bytes emitted for one byte of a JSON string. -/
def writeCharBytes (ch : Nat) : List Nat :=
  if ch ≥ 48 then
    if ch = kJSONBackslash then [kJSONBackslash, kJSONBackslash] else [ch]
  else
    let outCh := kJSONCharTable.getD ch 0
    if outCh = 1 then [ch]
    else if outCh > 1 then [kJSONBackslash, outCh]
    else jsonEscapeChar ch

/-- Source `TJSONContext::writeString` as a pure function of the active
context: separator, quote, escaped bytes, quote. -/
def ctxWriteString (c : CtxKind) (str : List Nat) : List Nat × CtxKind :=
  let n := ctxWriteNext c
  (n.1 ++ [kJSONStringDelimiter] ++ (str.map writeCharBytes).flatten
    ++ [kJSONStringDelimiter], n.2)

/-- Source `TJSONContext::writeInteger` as a pure function of the active
context: separator, then the decimal string, quoted iff `escapeNum()`
holds after the separator was emitted. -/
def ctxWriteInteger (c : CtxKind) (i : Int) : List Nat × CtxKind :=
  let n := ctxWriteNext c
  let esc := ctxEscapeNum n.2
  (n.1 ++ (if esc then [kJSONStringDelimiter] else []) ++ intDec i
    ++ (if esc then [kJSONStringDelimiter] else []), n.2)

/-- Source `TJSONContext::writeBase64` as a pure function of the active
context: separator, quote, unpadded Base64 payload, quote. -/
def ctxWriteBase64 (c : CtxKind) (str : List Nat) : List Nat × CtxKind :=
  let n := ctxWriteNext c
  (n.1 ++ [kJSONStringDelimiter] ++ base64EncodeAll str
    ++ [kJSONStringDelimiter], n.2)

/-- Classification of a C++ `double` as `writeDouble` sees it.  The
`finite` payload carries the bytes `doubleToString` renders for the
value: an `std::ostringstream` imbued with the classic C locale at
precision `2 + std::numeric_limits<double>::digits10` (= 17
significant digits); the floating-point formatting itself is beyond a
shallow embedding and is taken as the constructor's argument. -/
inductive DClass
  | nanV
  | infV
  | negInfV
  | finite (rendered : List Nat)
deriving DecidableEq

/-- The token `writeDouble` selects for the value. -/
def dclassVal : DClass → List Nat
  | .nanV => strBytes "NaN"
  | .infV => strBytes "Infinity"
  | .negInfV => strBytes "-Infinity"
  | .finite r => r

/-- Whether `writeDouble` classified the value as special
(`FP_INFINITE` or `FP_NAN`). -/
def dclassSpecial : DClass → Bool
  | .finite _ => false
  | _ => true

/-- Source `TJSONContext::writeDouble` as a pure function of the active
context: separator, then the token, quoted iff the value is special or
`escapeNum()` holds. -/
def ctxWriteDouble (c : CtxKind) (d : DClass) : List Nat × CtxKind :=
  let n := ctxWriteNext c
  let esc := dclassSpecial d || ctxEscapeNum n.2
  (n.1 ++ (if esc then [kJSONStringDelimiter] else []) ++ dclassVal d
    ++ (if esc then [kJSONStringDelimiter] else []), n.2)

/-- Source `getTypeNameForTypeID`: the short identifier for a type, or the
NOT_IMPLEMENTED failure of the `default` branch. -/
def getTypeNameForTypeID : TType → Except PErr (List Nat)
  | .tBool => .ok (strBytes "tf")
  | .tByte => .ok (strBytes "i8")
  | .tI16 => .ok (strBytes "i16")
  | .tI32 => .ok (strBytes "i32")
  | .tI64 => .ok (strBytes "i64")
  | .tDouble => .ok (strBytes "dbl")
  | .tString => .ok (strBytes "str")
  | .tStruct => .ok (strBytes "rec")
  | .tMap => .ok (strBytes "map")
  | .tSet => .ok (strBytes "set")
  | .tList => .ok (strBytes "lst")
  | .stop => .error .notImplemented

/-- The inner `switch` of `getTypeIDForTypeName`, reached only when
`name.length() > 1`: dispatch on the first character and, for `i` and
`s`, on the second; `T_STOP` is the sentinel for no match. -/
def typeFromChars (c0 c1 : Nat) : TType :=
  if c0 = 100 then .tDouble
  else if c0 = 105 then
    (if c1 = 56 then .tByte
     else if c1 = 49 then .tI16
     else if c1 = 51 then .tI32
     else if c1 = 54 then .tI64
     else .stop)
  else if c0 = 108 then .tList
  else if c0 = 109 then .tMap
  else if c0 = 114 then .tStruct
  else if c0 = 115 then
    (if c1 = 116 then .tString
     else if c1 = 101 then .tSet
     else .stop)
  else if c0 = 116 then .tBool
  else .stop

/-- Source `getTypeIDForTypeName`: sentinel stays `T_STOP` for names of length
at most 1 or unmatched characters, which raises NOT_IMPLEMENTED. -/
def getTypeIDForTypeName (name : List Nat) : Except PErr TType :=
  let result := match name with
    | c0 :: c1 :: _ => typeFromChars c0 c1
    | _ => TType.stop
  if result = TType.stop then .error .notImplemented else .ok result

/-!
## UTF-16 and escapes on the read side
-/

/-- UTF-8 bytes of a Unicode code point. -/
def utf8Enc (cp : Nat) : List Nat :=
  if cp < 0x80 then [cp]
  else if cp < 0x800 then [192 + cp / 64, 128 + cp % 64]
  else if cp < 0x10000 then
    [224 + cp / 4096, 128 + (cp / 64) % 64, 128 + cp % 64]
  else
    [240 + cp / 262144, 128 + (cp / 4096) % 64, 128 + (cp / 64) % 64,
     128 + cp % 64]

/-- Modelled from the spec ("convert to UTF-8"): the conversion
`boost::locale::conv::utf_to_utf<char>` that `readString` applies to
its buffered UTF-16 code units, with boost's default `skip` error
method: a valid surrogate pair becomes one code point, and an illegal
code unit (unpaired high or low surrogate) is silently dropped. -/
def utf16ToUtf8 : List Nat → List Nat
  | [] => []
  | u :: rest =>
    if isHighSurrogate u then
      match rest with
      | v :: rest2 =>
        if isLowSurrogate v then
          utf8Enc (0x10000 + (u - 0xD800) * 0x400 + (v - 0xDC00))
            ++ utf16ToUtf8 rest2
        else utf16ToUtf8 (v :: rest2)
      | [] => []
    else if isLowSurrogate u then utf16ToUtf8 rest
    else utf8Enc u ++ utf16ToUtf8 rest

/-- The conversion applied to `codeunits.data()` after `0` was pushed:
`utf_to_utf` reads the pointer up to the NUL terminator. -/
def convertUnits (codeunits : List Nat) : List Nat :=
  utf16ToUtf8 (codeunits.takeWhile (fun u => u ≠ 0))

/-- The `kEscapeChars` / `kEscapeCharVals` lookup for a short escape:
the characters of `"\bfnrt` (after the backslash) to their byte
values; `none` is `std::string::npos`. -/
def escapeCharLookup (ch : Nat) : Option Nat :=
  if ch = 34 then some 34
  else if ch = 92 then some 92
  else if ch = 98 then some 8
  else if ch = 102 then some 12
  else if ch = 110 then some 10
  else if ch = 114 then some 13
  else if ch = 116 then some 9
  else none


/-!
## Protocol state

The `TJSONRPCProtocol` object: I/O mode, flag set, recorded message
fields, the two context stacks (head of the list is the current
context `context_`, the tail is the saved `contexts_`), the transport
(bytes written so far and bytes still readable) and the in-memory
scratch `TMemoryBuffer` (written at the back, read at the front).
-/

structure RPCState where
  rwBuffered : Bool
  flags : Nat
  method : List Nat
  msgId : Int
  errCode : Int
  errMsg : List Nat
  tstack : List Ctx
  bstack : List Ctx
  tout : List Nat
  tin : List Nat
  buf : List Nat
deriving DecidableEq

/-- Outcome of one protocol operation: C++ exceptions become an `err`
result that still carries the state of the object at the moment the
exception escapes. -/
inductive Step (α : Type)
  | ok (v : α) (s : RPCState)
  | err (e : PErr) (s : RPCState)
deriving DecidableEq

/-- Sequencing: on success continue with the value and the new state,
on failure propagate without running anything further (C++ unwinding
performs no further mutation). -/
def Step.bind {α β : Type} : Step α → (α → RPCState → Step β) → Step β
  | .ok v s, f => f v s
  | .err e s, _ => .err e s

/-- Sequencing a unit-valued operation. -/
def Step.andThen {α : Type} : Step Unit → (RPCState → Step α) → Step α
  | .ok _ s, f => f s
  | .err e s, _ => .err e s

/-- Source `contexts()`: the stack selected by the current mode. -/
def curStack (s : RPCState) : List Ctx :=
  if s.rwBuffered then s.bstack else s.tstack

/-- Replace the stack selected by the current mode. -/
def withStack (s : RPCState) (st : List Ctx) : RPCState :=
  if s.rwBuffered then { s with bstack := st } else { s with tstack := st }

/-- Source `write` on the transport behind the current mode's contexts. -/
def emit (bytes : List Nat) (s : RPCState) : RPCState :=
  if s.rwBuffered then { s with buf := s.buf ++ bytes }
  else { s with tout := s.tout ++ bytes }

/-- Source `buffer_->write`: always the scratch buffer, whatever the mode. -/
def bufWrite (bytes : List Nat) (s : RPCState) : RPCState :=
  { s with buf := s.buf ++ bytes }

/-- Source `buffer_->resetBuffer()`. -/
def resetBuf (s : RPCState) : RPCState := { s with buf := [] }

/-- Assign `mode_`. -/
def setMode (buffered : Bool) (s : RPCState) : RPCState :=
  { s with rwBuffered := buffered }

/-- Assign `flags_`. -/
def setFlags (f : Nat) (s : RPCState) : RPCState := { s with flags := f }

/-- Assign `message_.method`. -/
def setMethod (m : List Nat) (s : RPCState) : RPCState := { s with method := m }

/-- Assign `message_.id`. -/
def setMsgId (i : Int) (s : RPCState) : RPCState := { s with msgId := i }

/-- Assign `message_.error_code`. -/
def setErrCode (i : Int) (s : RPCState) : RPCState := { s with errCode := i }

/-- Assign `message_.error_message`. -/
def setErrMsg (m : List Nat) (s : RPCState) : RPCState := { s with errMsg := m }

/-- Source `flags_ = operator|(flags_, f)`. -/
def orFlags (f : Nat) (s : RPCState) : RPCState :=
  { s with flags := s.flags ||| f }

/-- Push a fresh context (`push`): the previous top is saved below. -/
def pushCtx (k : CtxKind) (s : RPCState) : RPCState :=
  withStack s ({ kind := k, la := none } :: curStack s)

/-- Source `reader().read()` through the current top context's lookahead
reader: its buffered byte if present, else one byte from the mode's
byte source; exhaustion raises the transport's EOF. -/
def readByte (s : RPCState) : Step Nat :=
  match curStack s with
  | [] => .err .eof s
  | c :: rest =>
    match c.la with
    | some b => .ok b (withStack s ({ kind := c.kind, la := none } :: rest))
    | none =>
      if s.rwBuffered then
        match s.buf with
        | [] => .err .eof s
        | b :: bs => .ok b { s with buf := bs }
      else
        match s.tin with
        | [] => .err .eof s
        | b :: bs => .ok b { s with tin := bs }

/-- Source `reader().peek()` through the current top context's reader. -/
def peekByte (s : RPCState) : Step Nat :=
  match curStack s with
  | [] => .err .eof s
  | c :: rest =>
    match c.la with
    | some b => .ok b s
    | none =>
      if s.rwBuffered then
        match s.buf with
        | [] => .err .eof s
        | b :: bs =>
          .ok b (withStack { s with buf := bs }
            ({ kind := c.kind, la := some b } :: rest))
      else
        match s.tin with
        | [] => .err .eof s
        | b :: bs =>
          .ok b (withStack { s with tin := bs }
            ({ kind := c.kind, la := some b } :: rest))

/-- One byte from the current mode's byte source, bypassing every
lookahead buffer: this is what a freshly constructed context's empty
reader does on its first `read()`. -/
def readByteRaw (s : RPCState) : Step Nat :=
  if s.rwBuffered then
    match s.buf with
    | [] => .err .eof s
    | b :: bs => .ok b { s with buf := bs }
  else
    match s.tin with
    | [] => .err .eof s
    | b :: bs => .ok b { s with tin := bs }

/-- Source `readSyntaxChar`: read one byte and require it to be `ch`. -/
def readSyntaxChar (ch : Nat) (s : RPCState) : Step Unit :=
  (readByte s).bind fun ch2 s2 =>
    if ch2 = ch then .ok () s2 else .err .invalidData s2

/-- Kind of the current top context. -/
def getTopKind (s : RPCState) : Step CtxKind :=
  match curStack s with
  | [] => .err .eof s
  | c :: _ => .ok c.kind s

/-- Replace the kind of the current top context (its lookahead state is
untouched). -/
def setTopKind (k : CtxKind) (s : RPCState) : Step Unit :=
  match curStack s with
  | [] => .err .eof s
  | c :: rest => .ok () (withStack s ({ kind := k, la := c.la } :: rest))

/-- Pop the current context (`pop`): its lookahead reader is
discarded. -/
def popCtx (s : RPCState) : Step Unit :=
  match curStack s with
  | [] => .err .eof s
  | _ :: rest => .ok () (withStack s rest)

/-- Source `context()->writeNext()` on the current top context. -/
def writeNextM (s : RPCState) : Step Unit :=
  (getTopKind s).bind fun k s2 =>
    (setTopKind (ctxWriteNext k).2 s2).andThen fun s3 =>
      .ok () (emit (ctxWriteNext k).1 s3)

/-- Source `context()->readNext()` on the current top context: the state is
advanced first, then the expected separator is consumed. -/
def readNextM (s : RPCState) : Step Unit :=
  (getTopKind s).bind fun k s2 =>
    (setTopKind (ctxReadNext k).2 s2).andThen fun s3 =>
      match (ctxReadNext k).1 with
      | none => .ok () s3
      | some ch => readSyntaxChar ch s3

/-- Source `context()->escapeNum()`. -/
def escapeNumM (s : RPCState) : Step Bool :=
  (getTopKind s).bind fun k s2 => .ok (ctxEscapeNum k) s2

/-- Source `contexts().pushWrite(c)`: the new context's `writeStart` ticks the
parent with `writeNext` and emits the opener, then the context is
pushed. -/
def pushWriteM (k : CtxKind) (s : RPCState) : Step Unit :=
  (writeNextM s).andThen fun s2 =>
    .ok () (pushCtx k (emit [ctxOpener k] s2))

/-- Source `contexts().popWrite()`: `writeEnd` emits the closer, then the
context is popped. -/
def popWriteM (s : RPCState) : Step Unit :=
  (getTopKind s).bind fun k s2 =>
    popCtx (emit [ctxCloser k] s2)

/-- Source `contexts().pushRead(c)`: the parent consumes its separator, the
new context reads its opener through its own fresh (empty) reader, and
the context is pushed only after `readStart` succeeded. -/
def pushReadM (k : CtxKind) (s : RPCState) : Step Unit :=
  (readNextM s).andThen fun s2 =>
    (readByteRaw s2).bind fun ch2 s3 =>
      if ch2 = ctxOpener k then .ok () (pushCtx k s3)
      else .err .invalidData s3

/-- Source `contexts().popRead()`: `readEnd` consumes the closer through the
current reader, then the context is popped. -/
def popReadM (s : RPCState) : Step Unit :=
  (getTopKind s).bind fun k s2 =>
    (readSyntaxChar (ctxCloser k) s2).andThen fun s3 =>
      popCtx s3

/-!
## Primitive writers
-/

/-- Source `context()->writeString(str)`. -/
def writeStringM (str : List Nat) (s : RPCState) : Step Unit :=
  (getTopKind s).bind fun k s2 =>
    (setTopKind (ctxWriteString k str).2 s2).andThen fun s3 =>
      .ok () (emit (ctxWriteString k str).1 s3)

/-- Source `context()->writeInteger(num)`. -/
def writeIntegerM (i : Int) (s : RPCState) : Step Unit :=
  (getTopKind s).bind fun k s2 =>
    (setTopKind (ctxWriteInteger k i).2 s2).andThen fun s3 =>
      .ok () (emit (ctxWriteInteger k i).1 s3)

/-- Source `context()->writeBase64(str)` (the SIZE_LIMIT check fires between
the opening quote and the payload). -/
def writeBase64M (str : List Nat) (s : RPCState) : Step Unit :=
  (writeNextM s).andThen fun s2 =>
    let s3 := emit [kJSONStringDelimiter] s2
    if str.length > 2 ^ 32 - 1 then .err .sizeLimit s3
    else .ok () (emit [kJSONStringDelimiter] (emit (base64EncodeAll str) s3))

/-- Source `context()->writeDouble(num)`. -/
def writeDoubleM (d : DClass) (s : RPCState) : Step Unit :=
  (getTopKind s).bind fun k s2 =>
    (setTopKind (ctxWriteDouble k d).2 s2).andThen fun s3 =>
      .ok () (emit (ctxWriteDouble k d).1 s3)

/-- Source `context()->writeTypeID(typeID)`: the name is resolved (possibly
raising NOT_IMPLEMENTED) before anything is written. -/
def writeTypeIDM (t : TType) (s : RPCState) : Step Unit :=
  match getTypeNameForTypeID t with
  | .ok nm => writeStringM nm s
  | .error e => .err e s

/-!
## Primitive readers
-/

/-- Source `readEscapeChar`: four bytes are read, then each is converted by
`hexVal` (which raises INVALID_DATA on a non-hex byte). -/
def readEscapeCharM (s : RPCState) : Step Nat :=
  (readByte s).bind fun b0 s0 =>
    (readByte s0).bind fun b1 s1 =>
      (readByte s1).bind fun b2 s2 =>
        (readByte s2).bind fun b3 s3 =>
          match hexVal b0, hexVal b1, hexVal b2, hexVal b3 with
          | some h0, some h1, some h2, some h3 =>
            .ok (h0 * 4096 + h1 * 256 + h2 * 16 + h3) s3
          | _, _, _, _ => .err .invalidData s3

/-- The `while (true)` body of `readString`, carrying the pending
UTF-16 `codeunits` buffer and the accumulated UTF-8 result. -/
def readStringLoop : Nat → List Nat → List Nat → RPCState → Step (List Nat)
  | 0, _, _, s => .err .fuelOut s
  | fuel + 1, codeunits, acc, s =>
    (readByte s).bind fun ch s2 =>
      if ch = kJSONStringDelimiter then
        (if codeunits = [] then .ok acc s2 else .err .invalidData s2)
      else if ch = kJSONBackslash then
        (readByte s2).bind fun ch2 s3 =>
          if ch2 = kJSONEscapeChar then
            (readEscapeCharM s3).bind fun cp s4 =>
              if isHighSurrogate cp then
                readStringLoop fuel (codeunits ++ [cp]) acc s4
              else if isLowSurrogate cp ∧ codeunits = [] then
                .err .invalidData s4
              else
                readStringLoop fuel [] (acc ++ convertUnits (codeunits ++ [cp])) s4
          else
            match escapeCharLookup ch2 with
            | none => .err .invalidData s3
            | some v =>
              if codeunits = [] then readStringLoop fuel [] (acc ++ [v]) s3
              else .err .invalidData s3
      else
        if codeunits = [] then readStringLoop fuel [] (acc ++ [ch]) s2
        else .err .invalidData s2

/-- Source `context()->readString(str, skipContext)`. -/
def readStringM (skipCtx : Bool) (fuel : Nat) (s : RPCState) :
    Step (List Nat) :=
  (if skipCtx then .ok () s else readNextM s).andThen fun s2 =>
    (readSyntaxChar kJSONStringDelimiter s2).andThen fun s3 =>
      readStringLoop fuel [] [] s3

/-- Source `readNumericChars`: peek and consume the maximal numeric prefix. -/
def readNumericCharsM : Nat → RPCState → Step (List Nat)
  | 0, s => .err .fuelOut s
  | fuel + 1, s =>
    (peekByte s).bind fun ch s2 =>
      if isJSONNumeric ch then
        (readByte s2).bind fun _ s3 =>
          (readNumericCharsM fuel s3).bind fun rest s4 =>
            .ok (ch :: rest) s4
      else .ok [] s2

/-- All-decimal-digits parse of a nonempty digit string. -/
def parseDigits : List Nat → Option Nat
  | [] => none
  | ds =>
    if ds.all (fun d => 48 ≤ d ∧ d ≤ 57) then
      some (ds.foldl (fun acc d => acc * 10 + (d - 48)) 0)
    else none

/-- Source `boost::lexical_cast<IntType>` on the numeric characters collected
by `readNumericChars`: an optional sign followed by digits only;
anything else (empty, `.`, `e`, trailing junk) fails. -/
def parseDec (str : List Nat) : Option Int :=
  match str with
  | 45 :: ds => (parseDigits ds).map (fun n => -(n : Int))
  | 43 :: ds => (parseDigits ds).map (fun n => (n : Int))
  | ds => (parseDigits ds).map (fun n => (n : Int))

/-- Source `context()->readInteger(num)` for a target type with range
`[lo, hi]`: separator, opening quote iff `escapeNum()`, maximal
numeric prefix, `lexical_cast` (out-of-range or malformed raises
INVALID_DATA), closing quote iff `escapeNum()`. -/
def readIntegerM (lo hi : Int) (fuel : Nat) (s : RPCState) : Step Int :=
  (readNextM s).andThen fun s2 =>
    (escapeNumM s2).bind fun esc s3 =>
      ((if esc then readSyntaxChar kJSONStringDelimiter s3
        else .ok () s3) : Step Unit).andThen fun s4 =>
        (readNumericCharsM fuel s4).bind fun str s5 =>
          match parseDec str with
          | some v =>
            if lo ≤ v ∧ v ≤ hi then
              ((if esc then readSyntaxChar kJSONStringDelimiter s5
                else .ok () s5) : Step Unit).andThen fun s6 =>
                .ok v s6
            else .err .invalidData s5
          | none => .err .invalidData s5

/-- Source `readI32` on the current context. -/
def readI32M (fuel : Nat) (s : RPCState) : Step Int :=
  readIntegerM (-(2 ^ 31)) (2 ^ 31 - 1) fuel s

/-- Source `context()->readTypeID(typeID)`. -/
def readTypeIDM (fuel : Nat) (s : RPCState) : Step TType :=
  (readStringM false fuel s).bind fun nm s2 =>
    match getTypeIDForTypeName nm with
    | .ok t => .ok t s2
    | .error e => .err e s2

/-- The `while (nesting)` loop of `readObject`: copy bytes into the
scratch buffer, counting `«{»` up and `«}»` down — with the source's
`FIXME escape {} in strings`: braces inside string literals are
counted too. -/
def readObjectLoop : Nat → Nat → RPCState → Step Unit
  | 0, _, s => .err .fuelOut s
  | fuel + 1, nesting, s =>
    if nesting = 0 then .ok () s
    else
      (readByte s).bind fun ch s2 =>
        let s3 := bufWrite [ch] s2
        if ch = kJSONObjectStart then readObjectLoop fuel (nesting + 1) s3
        else if ch = kJSONObjectEnd then readObjectLoop fuel (nesting - 1) s3
        else readObjectLoop fuel nesting s3

/-- Source `context()->readObject(buf)`: separator, opening brace (written to
the scratch buffer as well), then the balanced copy. -/
def readObjectM (fuel : Nat) (s : RPCState) : Step Unit :=
  (readNextM s).andThen fun s2 =>
    (readSyntaxChar kJSONObjectStart s2).andThen fun s3 =>
      readObjectLoop fuel 1 (bufWrite [kJSONObjectStart] s3)

/-!
## TJSONRPCProtocol operations
-/

/-- Source `JSONRPCFlags` of TJSONRPCProtocol.h. -/
def JSONRPC_UNSET : Nat := 0

/-- Source `JSONRPC_VERSION = 1 << 0`. -/
def JSONRPC_VERSION : Nat := 1 <<< 0

/-- Source `JSONRPC_METHOD = 1 << 1`. -/
def JSONRPC_METHOD : Nat := 1 <<< 1

/-- Source `JSONRPC_ID = 1 << 2`. -/
def JSONRPC_ID : Nat := 1 <<< 2

/-- Source `JSONRPC_PARAMS = 1 << 3`. -/
def JSONRPC_PARAMS : Nat := 1 <<< 3

/-- Source `JSONRPC_RESULT = 1 << 4`. -/
def JSONRPC_RESULT : Nat := 1 <<< 4

/-- Source `JSONRPC_ERR_CODE = 1 << 5`. -/
def JSONRPC_ERR_CODE : Nat := 1 <<< 5

/-- Source `JSONRPC_ERR_MSG = 1 << 6`. -/
def JSONRPC_ERR_MSG : Nat := 1 <<< 6

/-- Source `JSONRPC_ERR_DATA = 1 << 7`. -/
def JSONRPC_ERR_DATA : Nat := 1 <<< 7

/-- Source `JSONRPC_REQUEST = VERSION | ID | METHOD`. -/
def JSONRPC_REQUEST : Nat := JSONRPC_VERSION ||| JSONRPC_ID ||| JSONRPC_METHOD

/-- Source `JSONRPC_FULL_REQUEST = REQUEST | PARAMS`. -/
def JSONRPC_FULL_REQUEST : Nat := JSONRPC_REQUEST ||| JSONRPC_PARAMS

/-- Source `JSONRPC_NOTIFICATION = VERSION | METHOD`. -/
def JSONRPC_NOTIFICATION : Nat := JSONRPC_VERSION ||| JSONRPC_METHOD

/-- Source `JSONRPC_FULL_NOTIFICATION = NOTIFICATION | PARAMS`. -/
def JSONRPC_FULL_NOTIFICATION : Nat := JSONRPC_NOTIFICATION ||| JSONRPC_PARAMS

/-- Source `JSONRPC_RESPONSE = VERSION | ID | RESULT`. -/
def JSONRPC_RESPONSE : Nat := JSONRPC_VERSION ||| JSONRPC_ID ||| JSONRPC_RESULT

/-- Source `JSONRPC_ERROR = VERSION | ID | ERR_CODE | ERR_MSG`. -/
def JSONRPC_ERROR : Nat :=
  JSONRPC_VERSION ||| JSONRPC_ID ||| JSONRPC_ERR_CODE ||| JSONRPC_ERR_MSG

/-- Source `JSONRPC_FULL_ERROR = ERROR | ERR_DATA`. -/
def JSONRPC_FULL_ERROR : Nat := JSONRPC_ERROR ||| JSONRPC_ERR_DATA

/-- Source `writeStructBegin`: push a pair context onto the mode's stack. -/
def writeStructBeginM (s : RPCState) : Step Unit :=
  pushWriteM (.pair true true) s

/-- Source `writeStructEnd`. -/
def writeStructEndM (s : RPCState) : Step Unit := popWriteM s

/-- Source `writeFieldBegin`: field id as integer in the enclosing pair
context (auto-quoted there), then a fresh pair context holding the type
tag. -/
def writeFieldBeginM (fieldType : TType) (fieldId : Int) (s : RPCState) :
    Step Unit :=
  (writeIntegerM fieldId s).andThen fun s2 =>
    (pushWriteM (.pair true true) s2).andThen fun s3 =>
      writeTypeIDM fieldType s3

/-- Source `writeFieldEnd`. -/
def writeFieldEndM (s : RPCState) : Step Unit := popWriteM s

/-- Source `writeFieldStop`: nothing. -/
def writeFieldStopM (s : RPCState) : Step Unit := .ok () s

/-- Source `TJSONRPCProtocol::writeMessageBegin`. -/
def rpcWriteMessageBegin (name : List Nat) (messageType : Int)
    (seqid : Int) (s : RPCState) : Step Unit :=
  let s1 := setFlags JSONRPC_VERSION (resetBuf (setMode false s))
  (writeStructBeginM s1).andThen fun s2 =>
    (writeStringM (strBytes "jsonrpc") s2).andThen fun s3 =>
      (writeStringM (strBytes "2.0") s3).andThen fun s4 =>
        if messageType = T_CALL then
          let s5 := setFlags JSONRPC_REQUEST (setMsgId seqid (setMethod name s4))
          (writeStringM (strBytes "method") s5).andThen fun s6 =>
            (writeStringM s6.method s6).andThen fun s7 =>
              writeStringM (strBytes "params") s7
        else if messageType = T_ONEWAY then
          let s5 := setFlags JSONRPC_NOTIFICATION (setMethod name s4)
          (writeStringM (strBytes "method") s5).andThen fun s6 =>
            (writeStringM s6.method s6).andThen fun s7 =>
              writeStringM (strBytes "params") s7
        else if messageType = T_REPLY then
          let s5 := setFlags JSONRPC_RESPONSE (setMsgId seqid s4)
          writeStringM (strBytes "result") s5
        else if messageType = T_EXCEPTION then
          let s5 := setFlags JSONRPC_ERROR (setErrMsg (strBytes "Thrift exception")
            (setErrCode (-32000) (setMsgId seqid s4)))
          (writeStringM (strBytes "error") s5).andThen fun s6 =>
            (writeStructBeginM s6).andThen fun s7 =>
              (writeStringM (strBytes "code") s7).andThen fun s8 =>
                (writeIntegerM s8.errCode s8).andThen fun s9 =>
                  (writeStringM (strBytes "message") s9).andThen fun s10 =>
                    (writeStringM s10.errMsg s10).andThen fun s11 =>
                      writeStringM (strBytes "data") s11
        else
          .err .notImplemented (setFlags JSONRPC_UNSET (resetBuf s4))

/-- Source `TJSONRPCProtocol::writeMessageEnd`. -/
def rpcWriteMessageEnd (s : RPCState) : Step Unit :=
  (if s.flags = JSONRPC_REQUEST ∨ s.flags = JSONRPC_FULL_REQUEST ∨
      s.flags = JSONRPC_RESPONSE then
    (writeStringM (strBytes "id") s).andThen fun s2 =>
      writeIntegerM s2.msgId s2
  else if s.flags = JSONRPC_ERROR ∨ s.flags = JSONRPC_FULL_ERROR then
    (writeStructEndM s).andThen fun s2 =>
      (writeStringM (strBytes "id") s2).andThen fun s3 =>
        writeIntegerM s3.msgId s3
  else if s.flags = JSONRPC_NOTIFICATION then .ok () s
  else .err .invalidData (setFlags JSONRPC_UNSET (resetBuf s))).andThen fun s4 =>
    (writeStructEndM s4).andThen fun s5 =>
      .ok () (setFlags JSONRPC_UNSET (resetBuf s5))

/-- Source `readStructBegin`: push a pair context onto the mode's stack. -/
def readStructBeginM (s : RPCState) : Step Unit :=
  pushReadM (.pair true true) s

/-- Source `readStructEnd`. -/
def readStructEndM (s : RPCState) : Step Unit := popReadM s

/-- Source `readJSONRPCField` (argument `true`) and the `do .. while` loop over
the nested `error` object's fields (argument `false`), fuelled
together.  Field dispatch is on the exact key string; an unknown key
raises INVALID_DATA and a `jsonrpc` value other than `"2.0"` raises
BAD_VERSION, in both cases without any buffer or flag cleanup. -/
def rpcFieldAux : Bool → Nat → RPCState → Step Unit
  | _, 0, s => .err .fuelOut s
  | false, fuel + 1, s =>
    (rpcFieldAux true fuel s).andThen fun s2 =>
      (peekByte s2).bind fun ch s3 =>
        if ch = kJSONObjectEnd then .ok () s3
        else rpcFieldAux false fuel s3
  | true, fuel + 1, s =>
    (readStringM false (fuel + 1) s).bind fun key s2 =>
      if key = strBytes "jsonrpc" then
        (readStringM false (fuel + 1) s2).bind fun v s3 =>
          if v = strBytes "2.0" then .ok () (orFlags JSONRPC_VERSION s3)
          else .err .badVersion s3
      else if key = strBytes "method" then
        (readStringM false (fuel + 1) s2).bind fun m s3 =>
          .ok () (orFlags JSONRPC_METHOD (setMethod m s3))
      else if key = strBytes "id" then
        (readI32M (fuel + 1) s2).bind fun i s3 =>
          .ok () (orFlags JSONRPC_ID (setMsgId i s3))
      else if key = strBytes "params" then
        (readObjectM (fuel + 1) s2).andThen fun s3 =>
          .ok () (orFlags JSONRPC_PARAMS s3)
      else if key = strBytes "result" then
        (readObjectM (fuel + 1) s2).andThen fun s3 =>
          .ok () (orFlags JSONRPC_RESULT s3)
      else if key = strBytes "error" then
        (readStructBeginM s2).andThen fun s3 =>
          (rpcFieldAux false fuel s3).andThen fun s4 =>
            readStructEndM s4
      else if key = strBytes "code" then
        (readI32M (fuel + 1) s2).bind fun i s3 =>
          .ok () (orFlags JSONRPC_ERR_CODE (setErrCode i s3))
      else if key = strBytes "message" then
        (readStringM false (fuel + 1) s2).bind fun m s3 =>
          .ok () (orFlags JSONRPC_ERR_MSG (setErrMsg m s3))
      else if key = strBytes "data" then
        (readObjectM (fuel + 1) s2).andThen fun s3 =>
          .ok () (orFlags JSONRPC_ERR_DATA s3)
      else .err .invalidData s2

/-- The field scan of `readMessageBegin`: peek for the closing brace,
otherwise read one envelope field and repeat. -/
def rmbFieldsLoop : Nat → RPCState → Step Unit
  | 0, s => .err .fuelOut s
  | fuel + 1, s =>
    (peekByte s).bind fun ch s2 =>
      if ch = kJSONObjectEnd then .ok () s2
      else
        (rpcFieldAux true fuel s2).andThen fun s3 =>
          rmbFieldsLoop fuel s3

/-- The `switch (flags_)` of `readMessageBegin` after the envelope has
been scanned, as a pure function of the final flag set and the
recorded message fields: the outputs `(name, messageType, seqid)` and
the bytes synthesized into the scratch buffer, or the INVALID_DATA
failure of the `default` branch. -/
def rpcDispatch (flags : Nat) (mth : List Nat) (mid : Int) :
    Except PErr ((List Nat × Int × Int) × List Nat) :=
  if flags = JSONRPC_REQUEST ∨ flags = JSONRPC_FULL_REQUEST then
    .ok ((mth, T_CALL, mid),
      if flags = JSONRPC_REQUEST then [kJSONObjectStart, kJSONObjectEnd]
      else [])
  else if flags = JSONRPC_NOTIFICATION ∨ flags = JSONRPC_FULL_NOTIFICATION then
    .ok ((mth, T_ONEWAY, 0),
      if flags = JSONRPC_NOTIFICATION then [kJSONObjectStart, kJSONObjectEnd]
      else [])
  else if flags = JSONRPC_ERROR ∨ flags = JSONRPC_FULL_ERROR ∨
      flags = JSONRPC_RESPONSE then
    .ok (([], if flags = JSONRPC_RESPONSE then T_REPLY else T_EXCEPTION, mid),
      if flags = JSONRPC_ERROR then [kJSONObjectStart, kJSONObjectEnd]
      else [])
  else .error .invalidData

/-- Source `TJSONRPCProtocol::readMessageBegin`: reset, scan the envelope
into flags and the scratch buffer, dispatch on the final flag set
(resetting buffer and flags before the INVALID_DATA of the `default`
branch), then switch to buffered mode. -/
def rpcReadMessageBegin (fuel : Nat) (s : RPCState) :
    Step (List Nat × Int × Int) :=
  let s1 := setFlags JSONRPC_UNSET (setMode false (resetBuf s))
  (readStructBeginM s1).andThen fun s2 =>
    (rmbFieldsLoop fuel s2).andThen fun s3 =>
      (readStructEndM s3).andThen fun s4 =>
        match rpcDispatch s4.flags s4.method s4.msgId with
        | .ok (out, bufAdd) => .ok out (setMode true (bufWrite bufAdd s4))
        | .error e => .err e (setFlags JSONRPC_UNSET (resetBuf s4))

/-- Source `TJSONRPCProtocol::readMessageEnd`. -/
def rpcReadMessageEnd (s : RPCState) : Step Unit :=
  .ok () (setMode false (setFlags JSONRPC_UNSET (resetBuf s)))

/-- A fresh `TJSONRPCProtocol` on a transport whose readable bytes are
`inp`: transport mode, no flags, one root bare context per stack, an
empty scratch buffer. -/
def mkState (inp : List Nat) : RPCState :=
  { rwBuffered := false, flags := JSONRPC_UNSET, method := [], msgId := 0,
    errCode := 0, errMsg := [], tstack := [{ kind := .bare, la := none }],
    bstack := [{ kind := .bare, la := none }], tout := [], tin := inp,
    buf := [] }

/-!
## Probes for concrete runs
-/

/-- Bytes written to the transport by a successful write program. -/
def stepOut (r : Step Unit) : Option (List Nat) :=
  match r with
  | .ok _ s => some s.tout
  | .err _ _ => none

/-- Value, flag set and scratch buffer of a successful operation. -/
def stepValState {α : Type} (r : Step α) : Option (α × Nat × List Nat) :=
  match r with
  | .ok v s => some (v, s.flags, s.buf)
  | .err _ _ => none

/-- Error kind, flag set and scratch buffer of a failed operation. -/
def stepFail {α : Type} (r : Step α) : Option (PErr × Nat × List Nat) :=
  match r with
  | .ok _ _ => none
  | .err e s => some (e, s.flags, s.buf)

/-- Result value of a successful operation. -/
def stepVal {α : Type} (r : Step α) : Option α :=
  match r with
  | .ok v _ => some v
  | .err _ _ => none

/-- The write-side call sequence of the first literal scenario: message
begin for a call of `primitiveMethod` with seqid 0, an empty argument
struct, message end. -/
def c2Program (s : RPCState) : Step Unit :=
  (rpcWriteMessageBegin (strBytes "primitiveMethod") T_CALL 0 s).andThen
    fun s2 => (writeStructBeginM s2).andThen fun s3 =>
      (writeFieldStopM s3).andThen fun s4 =>
        (writeStructEndM s4).andThen fun s5 =>
          rpcWriteMessageEnd s5

/-- A call of method `m`, seqid 0, whose params struct holds field 1 of
type string with the one-byte value `«}»`. -/
def c1Program (s : RPCState) : Step Unit :=
  (rpcWriteMessageBegin (strBytes "m") T_CALL 0 s).andThen fun s2 =>
    (writeStructBeginM s2).andThen fun s3 =>
      (writeFieldBeginM .tString 1 s3).andThen fun s4 =>
        (writeStringM [125] s4).andThen fun s5 =>
          (writeFieldEndM s5).andThen fun s6 =>
            (writeFieldStopM s6).andThen fun s7 =>
              (writeStructEndM s7).andThen fun s8 =>
                rpcWriteMessageEnd s8

/-- The bytes `c1Program` puts on the wire. -/
def c1Wire : List Nat :=
  strBytes
    "\x7b\"jsonrpc\":\"2.0\",\"method\":\"m\",\"params\":\x7b\"1\":\x7b\"str\":\"\x7d\"\x7d\x7d,\"id\":0\x7d"

/-!
## Claim theorems
-/

/-- C2: writing an RPC-codec call message with method name
`primitiveMethod` and seqid 0, followed by an empty argument struct and
`writeMessageEnd`, produces exactly the byte string
`\x7b"jsonrpc":"2.0","method":"primitiveMethod","params":\x7b\x7d,"id":0\x7d`
on the transport. -/
theorem c2_empty_call_wire : stepOut (c2Program (mkState [])) =
    some (strBytes
      "\x7b\"jsonrpc\":\"2.0\",\"method\":\"primitiveMethod\",\"params\":\x7b\x7d,\"id\":0\x7d") := by
  rfl

/-- C1: the round trip `decode(encode(xs)) = xs` fails on the RPC codec
for a call message whose string value is `«}»`: encoding the call of
method `m`, seqid 0, with params struct field 1 of type `str` and value
`«}»` produces `c1Wire`, but `readMessageBegin` on `c1Wire` — because
`readObject`'s brace counter (marked `FIXME escape {} in strings`)
treats the `«}»` inside the string literal as a closing brace — stops
scanning before the `"id":0` member, ends with the FULL_NOTIFICATION
flag set, and returns messageType T_ONEWAY with seqid 0 instead of
T_CALL with the written seqid, leaving a truncated params object in the
scratch buffer. -/
theorem c1_readObject_brace_miscount :
    stepOut (c1Program (mkState [])) = some c1Wire ∧
    stepValState (rpcReadMessageBegin 100 (mkState c1Wire)) =
      some ((strBytes "m", T_ONEWAY, 0), JSONRPC_FULL_NOTIFICATION,
        strBytes "\x7b\"1\":\x7b\"str\":\"\x7d\"\x7d") ∧
    T_ONEWAY ≠ T_CALL := by
  refine ⟨by rfl, by rfl, by decide⟩

/-- C10: on a wire string consisting of exactly two `=` bytes, the
padding-stripping loop of `readBase64` strips both, wraps its unsigned
index below zero to `2 ^ 32 - 1`, and evaluates `b[4294967295]` — an
access outside the 2-byte string (whatever byte the surrounding memory
holds), contradicting the claim that the loop only ever indexes
positions inside the string. -/
theorem c10_strip_reads_out_of_bounds : ∀ oob : Nat → Nat,
    (stripPadRun oob [61, 61]).2 = [1, 0, 4294967295] ∧
    ∃ j ∈ (stripPadRun oob [61, 61]).2, List.length [61, 61] ≤ j := by
  intro oob
  have htr : (stripPadRun oob [61, 61]).2 = [1, 0, 4294967295] := by
    simp only [stripPadRun, stripLoop, byteAt]
    norm_num
  exact ⟨htr, ⟨4294967295, by rw [htr]; norm_num, by norm_num⟩⟩

/-- C9: `writeDouble` emits the quoted tokens `"Infinity"`,
`"-Infinity"` and `"NaN"` for the special values in every context, and
for a finite value it emits the rendering of the classic-C-locale
precision-17 formatter, quoted exactly when the active context's
`escapeNum()` is true. -/
theorem c9_write_double_tokens : ∀ c : CtxKind,
    (ctxWriteDouble c .infV).1 =
      (ctxWriteNext c).1 ++ [34] ++ strBytes "Infinity" ++ [34] ∧
    (ctxWriteDouble c .negInfV).1 =
      (ctxWriteNext c).1 ++ [34] ++ strBytes "-Infinity" ++ [34] ∧
    (ctxWriteDouble c .nanV).1 =
      (ctxWriteNext c).1 ++ [34] ++ strBytes "NaN" ++ [34] ∧
    ∀ r : List Nat,
      (ctxWriteDouble c (.finite r)).1 =
        (ctxWriteNext c).1 ++
          (if ctxEscapeNum (ctxWriteNext c).2 then [34] ++ r ++ [34]
           else r) := by
  intro c
  refine ⟨?_, ?_, ?_, ?_⟩
  · simp [ctxWriteDouble, dclassSpecial, dclassVal, kJSONStringDelimiter]
  · simp [ctxWriteDouble, dclassSpecial, dclassVal, kJSONStringDelimiter]
  · simp [ctxWriteDouble, dclassSpecial, dclassVal, kJSONStringDelimiter]
  · intro r
    by_cases h : ctxEscapeNum (ctxWriteNext c).2 <;>
      simp [ctxWriteDouble, dclassSpecial, dclassVal, kJSONStringDelimiter, h]

/-!
## Pair-context emission sequences (C3)
-/

/-- Iterate `writeNext` on a context `n` times, collecting the emitted
separator and the value `escapeNum()` returns right after the call
(`writeInteger` consults it at exactly that moment). -/
def pairRun : Nat → CtxKind → List (List Nat × Bool)
  | 0, _ => []
  | n + 1, c =>
    ((ctxWriteNext c).1, ctxEscapeNum (ctxWriteNext c).2) ::
      pairRun n (ctxWriteNext c).2

/-- Iterate `writeInteger` on a context, collecting each call's full
emission. -/
def pairIntRun : List Int → CtxKind → List (List Nat)
  | [], _ => []
  | v :: vs, c => (ctxWriteInteger c v).1 :: pairIntRun vs (ctxWriteInteger c v).2

/-- The separator the pair context emits before its `i`-th element:
nothing first, then `:` and `,` alternating starting with `:`. -/
def sepAt (i : Nat) : List Nat :=
  if i = 0 then [] else
    if i % 2 = 1 then [kJSONPairSeparator] else [kJSONElemSeparator]

/-- The `colon_` value at step `j` of a run that started at `c`. -/
def parityColon (c : Bool) (j : Nat) : Bool := if j % 2 = 0 then c else !c

theorem parityColon_succ (c : Bool) (j : Nat) :
    parityColon c (j + 1) = parityColon (!c) j := by
  by_cases h : j % 2 = 0
  · have e1 : (j + 1) % 2 = 1 := by omega
    simp [parityColon, h, e1]
  · have e0 : (j + 1) % 2 = 0 := by omega
    simp [parityColon, h, e0]

theorem pairRun_false : ∀ (n : Nat) (c : Bool),
    pairRun n (.pair false c) =
      (List.range n).map (fun j =>
        ([if parityColon c j then kJSONPairSeparator else kJSONElemSeparator],
         !(parityColon c j)))
  | 0, _ => rfl
  | n + 1, c => by
    show (([if c then kJSONPairSeparator else kJSONElemSeparator], !c) :
        List Nat × Bool) :: pairRun n (.pair false (!c)) = _
    rw [pairRun_false n (!c), List.range_succ_eq_map, List.map_cons,
      List.map_map]
    refine List.cons_eq_cons.mpr ⟨?_, ?_⟩
    · simp [parityColon]
    · apply List.map_congr_left
      intro j _
      simp only [Function.comp_apply, Nat.succ_eq_add_one]
      rw [parityColon_succ]

theorem pairIntRun_false : ∀ (vs : List Int) (c : Bool),
    pairIntRun vs (.pair false c) =
      vs.mapIdx (fun j v =>
        [if parityColon c j then kJSONPairSeparator else kJSONElemSeparator] ++
          (if parityColon c j then intDec v
           else [kJSONStringDelimiter] ++ intDec v ++ [kJSONStringDelimiter]))
  | [], _ => rfl
  | v :: vs, c => by
    show ([if c then kJSONPairSeparator else kJSONElemSeparator] ++
        (if (!c) then [kJSONStringDelimiter] else []) ++ intDec v ++
        (if (!c) then [kJSONStringDelimiter] else [])) ::
        pairIntRun vs (.pair false (!c)) = _
    rw [pairIntRun_false vs (!c), List.mapIdx_cons]
    refine List.cons_eq_cons.mpr ⟨?_, ?_⟩
    · by_cases h : c <;> simp [parityColon, h]
    · have hfun : (fun (i : Nat) (w : Int) =>
          [if parityColon c (i + 1) then kJSONPairSeparator
           else kJSONElemSeparator] ++
            (if parityColon c (i + 1) then intDec w
             else [kJSONStringDelimiter] ++ intDec w ++
               [kJSONStringDelimiter])) =
          (fun (j : Nat) (w : Int) =>
          [if parityColon (!c) j then kJSONPairSeparator
           else kJSONElemSeparator] ++
            (if parityColon (!c) j then intDec w
             else [kJSONStringDelimiter] ++ intDec w ++
               [kJSONStringDelimiter])) := by
        funext i w
        rw [parityColon_succ]
      rw [hfun]

/-- C3: in a pair context, the first `writeNext` emits nothing and each
subsequent call emits `:` and `,` alternately starting with `:`;
`escapeNum()` sampled right after the `i`-th call (the moment
`writeInteger` consults it) is true exactly for even `i`; consequently
the `i`-th `writeInteger` emission in a fresh pair context is its
separator followed by the decimal string wrapped in quotes for even `i`
and bare for odd `i`. -/
theorem c3_pair_separators_and_quoting :
    (∀ n : Nat, pairRun n (.pair true true) =
      (List.range n).map (fun i => (sepAt i, decide (i % 2 = 0)))) ∧
    (∀ vs : List Int, pairIntRun vs (.pair true true) =
      vs.mapIdx (fun i v => sepAt i ++
        (if i % 2 = 0 then
          [kJSONStringDelimiter] ++ intDec v ++ [kJSONStringDelimiter]
         else intDec v))) := by
  constructor
  · intro n
    match n with
    | 0 => rfl
    | n + 1 =>
      show (([], true) : List Nat × Bool) :: pairRun n (.pair false true) = _
      rw [pairRun_false n true, List.range_succ_eq_map, List.map_cons,
        List.map_map]
      refine List.cons_eq_cons.mpr ⟨?_, ?_⟩
      · simp [sepAt]
      · apply List.map_congr_left
        intro j _
        simp only [Function.comp_apply, Nat.succ_eq_add_one]
        by_cases h : j % 2 = 0
        · have e1 : (j + 1) % 2 = 1 := by omega
          simp [parityColon, sepAt, h, e1]
        · have e0 : (j + 1) % 2 = 0 := by omega
          simp [parityColon, sepAt, h, e0]
  · intro vs
    match vs with
    | [] => rfl
    | v :: vs =>
      show ([] ++ [kJSONStringDelimiter] ++ intDec v ++
          [kJSONStringDelimiter]) :: pairIntRun vs (.pair false true) = _
      rw [pairIntRun_false vs true, List.mapIdx_cons]
      refine List.cons_eq_cons.mpr ⟨?_, ?_⟩
      · simp [sepAt]
      · have hfun : (fun (i : Nat) (w : Int) => sepAt (i + 1) ++
            (if (i + 1) % 2 = 0 then
              [kJSONStringDelimiter] ++ intDec w ++ [kJSONStringDelimiter]
             else intDec w)) =
            (fun (j : Nat) (w : Int) =>
            [if parityColon true j then kJSONPairSeparator
             else kJSONElemSeparator] ++
              (if parityColon true j then intDec w
               else [kJSONStringDelimiter] ++ intDec w ++
                 [kJSONStringDelimiter])) := by
          funext j w
          by_cases h : j % 2 = 0
          · have e1 : (j + 1) % 2 = 1 := by omega
            simp [parityColon, sepAt, h, e1]
          · have e0 : (j + 1) % 2 = 0 := by omega
            simp [parityColon, sepAt, h, e0]
        rw [hfun]

/-- Error kind of a failed operation. -/
def stepErr {α : Type} (r : Step α) : Option PErr :=
  match r with
  | .ok _ _ => none
  | .err e _ => some e

/-- C6 (counterexample): the JSON string `"\ud800\u0041"` contains an
un-paired high surrogate escape followed by a `\uXXXX` escape that is
not its low-surrogate partner, yet `readString` succeeds: the escape
branch never runs the pending-surrogate check, the pair `[D800, 0041]`
goes to the UTF conversion, the unpaired high surrogate is silently
dropped, and the decode returns `"A"` with no invalid-data. -/
theorem c6_unpaired_high_accepted :
    stepVal (readStringM false 30 (mkState
      (kJSONStringDelimiter :: strBytes "\\ud800\\u0041\""))) = some [65] ∧
    isHighSurrogate 0xD800 = true := by
  exact ⟨rfl, rfl⟩

/-- C6 (amended): a `\uXXXX` escape decoding to a low surrogate with no
pending high surrogate raises invalid-data whatever follows; a pending
high surrogate raises invalid-data when the closing quote, a plain
byte, or a short escape arrives; a valid surrogate pair decodes to the
code point's UTF-8; but a `\uXXXX` escape that decodes to a
non-surrogate while a high surrogate is pending is not rejected (the
conversion drops the unpaired surrogate, as the counterexample
shows). -/
theorem c6_surrogate_checks_amended :
    (∀ (rest : List Nat) (fuel : Nat),
      stepErr (readStringM false (fuel + 1) (mkState
        (kJSONStringDelimiter :: ([92, 117, 100, 99, 48, 48] ++ rest)))) =
        some .invalidData) ∧
    stepErr (readStringM false 30 (mkState (kJSONStringDelimiter ::
      strBytes "\\ud800\""))) = some .invalidData ∧
    stepErr (readStringM false 30 (mkState (kJSONStringDelimiter ::
      strBytes "\\ud800A\""))) = some .invalidData ∧
    stepErr (readStringM false 30 (mkState (kJSONStringDelimiter ::
      strBytes "\\ud800\\n\""))) = some .invalidData ∧
    stepVal (readStringM false 30 (mkState (kJSONStringDelimiter ::
      strBytes "\\ud83d\\ude00\""))) = some [240, 159, 152, 128] := by
  refine ⟨?_, rfl, rfl, rfl, rfl⟩
  intro rest fuel
  simp [stepErr, readStringM, readNextM, getTopKind, setTopKind, ctxReadNext,
    readSyntaxChar, readByte, curStack, withStack, mkState, Step.bind,
    Step.andThen, readStringLoop, readEscapeCharM, hexVal, isHighSurrogate,
    isLowSurrogate, kJSONStringDelimiter, kJSONBackslash, kJSONEscapeChar,
    JSONRPC_UNSET]

/-- C7 (counterexample): the identifier `dx` is not one of the eleven
type tags, yet `getTypeIDForTypeName` maps it to T_DOUBLE instead of
raising not-implemented, because the dispatch looks only at the first
character `d`. -/
theorem c7_prefix_dx_counterexample :
    getTypeIDForTypeName (strBytes "dx") = .ok .tDouble ∧
    strBytes "dx" ∉ [strBytes "tf", strBytes "i8", strBytes "i16",
      strBytes "i32", strBytes "i64", strBytes "dbl", strBytes "str",
      strBytes "rec", strBytes "map", strBytes "lst", strBytes "set"] := by
  exact ⟨rfl, by decide⟩

/-- C7 (amended): each of the eleven identifiers maps to exactly its
type; names of length at most 1 raise not-implemented; for longer names
the result depends only on the first two characters (so any extension
of a recognized prefix is accepted), and not-implemented is raised
exactly when those two characters leave the `T_STOP` sentinel in
place. -/
theorem c7_type_tag_amended :
    getTypeIDForTypeName (strBytes "tf") = .ok .tBool ∧
    getTypeIDForTypeName (strBytes "i8") = .ok .tByte ∧
    getTypeIDForTypeName (strBytes "i16") = .ok .tI16 ∧
    getTypeIDForTypeName (strBytes "i32") = .ok .tI32 ∧
    getTypeIDForTypeName (strBytes "i64") = .ok .tI64 ∧
    getTypeIDForTypeName (strBytes "dbl") = .ok .tDouble ∧
    getTypeIDForTypeName (strBytes "str") = .ok .tString ∧
    getTypeIDForTypeName (strBytes "rec") = .ok .tStruct ∧
    getTypeIDForTypeName (strBytes "map") = .ok .tMap ∧
    getTypeIDForTypeName (strBytes "lst") = .ok .tList ∧
    getTypeIDForTypeName (strBytes "set") = .ok .tSet ∧
    getTypeIDForTypeName [] = .error .notImplemented ∧
    (∀ c : Nat, getTypeIDForTypeName [c] = .error .notImplemented) ∧
    (∀ (c0 c1 : Nat) (r1 r2 : List Nat),
      getTypeIDForTypeName (c0 :: c1 :: r1) =
        getTypeIDForTypeName (c0 :: c1 :: r2)) ∧
    (∀ (c0 c1 : Nat) (rest : List Nat),
      getTypeIDForTypeName (c0 :: c1 :: rest) = .error .notImplemented ↔
        typeFromChars c0 c1 = .stop) := by
  refine ⟨rfl, rfl, rfl, rfl, rfl, rfl, rfl, rfl, rfl, rfl, rfl, rfl,
    fun c => rfl, fun c0 c1 r1 r2 => rfl, fun c0 c1 rest => ?_⟩
  by_cases h : typeFromChars c0 c1 = .stop <;> simp [getTypeIDForTypeName, h]

/-- C8 (counterexample): when the per-field envelope dispatch of
`readMessageBegin` hits the unknown key `bogus` after `params` was
captured, the INVALID_DATA propagates with the PARAMS flag still set
and the copied `\x7b\x7d` object still in the scratch buffer — neither
is reset before the error escapes. -/
theorem c8_field_error_keeps_state :
    stepFail (rpcReadMessageBegin 100 (mkState (strBytes
      "\x7b\"params\":\x7b\x7d,\"bogus\":0\x7d"))) =
      some (.invalidData, JSONRPC_PARAMS,
        [kJSONObjectStart, kJSONObjectEnd]) ∧
    JSONRPC_PARAMS ≠ JSONRPC_UNSET ∧
    ([kJSONObjectStart, kJSONObjectEnd] : List Nat) ≠ [] := by
  exact ⟨rfl, by decide, by decide⟩

/-- C8 (amended): the scratch buffer is reset and the flags cleared
before the error propagates exactly in the three explicit `default`
branches — unknown message type in `writeMessageBegin`, unrecognized
flag set in `writeMessageEnd`, unrecognized final flag set in
`readMessageBegin` — while failures inside the per-field dispatch
propagate with the accumulated flags and buffer in place (see the
counterexample); `readMessageBegin` instead resets buffer, flags and
mode unconditionally at its start, so its outcome never depends on
flags or buffer left over from a previous failure. -/
theorem c8_reset_in_switch_defaults_amended :
    stepFail (rpcWriteMessageBegin [109] 9 0 (mkState [])) =
      some (.notImplemented, JSONRPC_UNSET, []) ∧
    stepFail (rpcWriteMessageEnd (setFlags 77 (bufWrite [1] (mkState [])))) =
      some (.invalidData, JSONRPC_UNSET, []) ∧
    stepFail (rpcReadMessageBegin 100
      (mkState (strBytes "\x7b\"jsonrpc\":\"2.0\"\x7d"))) =
      some (.invalidData, JSONRPC_UNSET, []) ∧
    (∀ (s : RPCState) (f : Nat) (b : List Nat) (fuel : Nat),
      rpcReadMessageBegin fuel (setFlags f { s with buf := b }) =
        rpcReadMessageBegin fuel s) := by
  exact ⟨rfl, rfl, rfl, fun s f b fuel => rfl⟩

/-- Source `readBinary`, i.e. `context()->readBase64(str)`: read the JSON
string contents, check the SIZE_LIMIT guard, then strip padding and
decode. -/
def readBase64M (fuel : Nat) (s : RPCState) : Step (List Nat) :=
  (readStringM false fuel s).bind fun tmp s2 =>
    if tmp.length > 2 ^ 32 - 1 then .err .sizeLimit s2
    else .ok (readBase64Core tmp) s2

theorem readByte_mkState (b : Nat) (bs : List Nat) :
    readByte (mkState (b :: bs)) = .ok b (mkState bs) := rfl

/-- Reading plain bytes (no quote, no backslash) up to the closing
quote consumes exactly those bytes and appends them to the result. -/
theorem scanPlain : ∀ (cs : List Nat), (∀ c ∈ cs, c ≠ 34 ∧ c ≠ 92) →
    ∀ (f : Nat) (acc rest : List Nat),
    readStringLoop (cs.length + 1 + f) [] acc (mkState (cs ++ 34 :: rest)) =
      .ok (acc ++ cs) (mkState rest)
  | [], _, f, acc, rest => by
    show readStringLoop (0 + 1 + f) [] acc (mkState (34 :: rest)) = _
    rw [show 0 + 1 + f = f + 1 from by omega]
    simp only [readStringLoop, readByte_mkState, Step.bind]
    simp [kJSONStringDelimiter]
  | c :: cs, h, f, acc, rest => by
    have hc := h c (by simp)
    have hrec := scanPlain cs (fun x hx => h x (by simp [hx])) f (acc ++ [c])
      rest
    show readStringLoop (cs.length + 1 + 1 + f) [] acc
      (mkState (c :: (cs ++ 34 :: rest))) = _
    rw [show cs.length + 1 + 1 + f = (cs.length + 1 + f) + 1 from by omega]
    simp only [readStringLoop, readByte_mkState, Step.bind]
    rw [if_neg (by simpa [kJSONStringDelimiter] using hc.1),
      if_neg (by simpa [kJSONBackslash] using hc.2)]
    simp only [if_true]
    rw [hrec]
    simp

theorem base64EncodeAll_plain (bs : List Nat) (h : ∀ b ∈ bs, b < 256) :
    ∀ c ∈ base64EncodeAll bs, c ≠ 34 ∧ c ≠ 92 := by
  intro c hc
  obtain ⟨i, hi, rfl⟩ := base64EncodeAll_mem bs h c hc
  exact b64chr_plain i hi

/-- C4: after the envelope scan, the `switch` on the final flag set
fully determines `readMessageBegin`'s outputs: REQUEST and FULL_REQUEST
give T_CALL with the recorded id, NOTIFICATION and FULL_NOTIFICATION
give T_ONEWAY with seqid 0, RESPONSE gives T_REPLY with empty name,
ERROR and FULL_ERROR give T_EXCEPTION with empty name; an empty
`\x7b\x7d` object is synthesized into the scratch buffer exactly for the
non-FULL variants that carry no payload (REQUEST, NOTIFICATION, ERROR);
every other flag set raises INVALID_DATA.  `rpcReadMessageBegin` feeds
its final state's flags, method and id into this dispatch. -/
theorem c4_flag_dispatch (flags : Nat) (mth : List Nat) (mid : Int) :
    (flags = JSONRPC_REQUEST →
      rpcDispatch flags mth mid =
        .ok ((mth, T_CALL, mid), [kJSONObjectStart, kJSONObjectEnd])) ∧
    (flags = JSONRPC_FULL_REQUEST →
      rpcDispatch flags mth mid = .ok ((mth, T_CALL, mid), [])) ∧
    (flags = JSONRPC_NOTIFICATION →
      rpcDispatch flags mth mid =
        .ok ((mth, T_ONEWAY, 0), [kJSONObjectStart, kJSONObjectEnd])) ∧
    (flags = JSONRPC_FULL_NOTIFICATION →
      rpcDispatch flags mth mid = .ok ((mth, T_ONEWAY, 0), [])) ∧
    (flags = JSONRPC_RESPONSE →
      rpcDispatch flags mth mid = .ok (([], T_REPLY, mid), [])) ∧
    (flags = JSONRPC_ERROR →
      rpcDispatch flags mth mid =
        .ok (([], T_EXCEPTION, mid), [kJSONObjectStart, kJSONObjectEnd])) ∧
    (flags = JSONRPC_FULL_ERROR →
      rpcDispatch flags mth mid = .ok (([], T_EXCEPTION, mid), [])) ∧
    (flags ≠ JSONRPC_REQUEST → flags ≠ JSONRPC_FULL_REQUEST →
     flags ≠ JSONRPC_NOTIFICATION → flags ≠ JSONRPC_FULL_NOTIFICATION →
     flags ≠ JSONRPC_RESPONSE → flags ≠ JSONRPC_ERROR →
     flags ≠ JSONRPC_FULL_ERROR →
      rpcDispatch flags mth mid = .error .invalidData) := by
  refine ⟨?_, ?_, ?_, ?_, ?_, ?_, ?_, ?_⟩
  · intro h
    subst h
    rfl
  · intro h
    subst h
    rfl
  · intro h
    subst h
    rfl
  · intro h
    subst h
    rfl
  · intro h
    subst h
    rfl
  · intro h
    subst h
    rfl
  · intro h
    subst h
    rfl
  · intro h1 h2 h3 h4 h5 h6 h7
    simp [rpcDispatch, h1, h2, h3, h4, h5, h6, h7]

/-- Witness for C4 at concrete inputs: the NOTIFICATION flag set yields
a oneway with seqid 0 and a synthesized empty object, and the empty
flag set is rejected. -/
theorem c4_flag_dispatch_witness :
    rpcDispatch JSONRPC_NOTIFICATION [109] 5 =
      .ok (([109], T_ONEWAY, 0), [kJSONObjectStart, kJSONObjectEnd]) ∧
    rpcDispatch 0 [] 0 = .error .invalidData :=
  ⟨(c4_flag_dispatch JSONRPC_NOTIFICATION [109] 5).2.2.1 rfl,
   (c4_flag_dispatch 0 [] 0).2.2.2.2.2.2.2 (by decide) (by decide)
     (by decide) (by decide) (by decide) (by decide) (by decide)⟩

/-- C5: `writeBase64` wraps the unpadded Base64 payload in quotes (a
1-byte remainder becomes 2 Base64 bytes and a 2-byte remainder 3, and
no `=` is ever emitted); `readBase64` applied to that output through
the string reader returns the original bytes, leaving the rest of the
input untouched; and the same input with the conventional trailing `=`
padding decodes to the same bytes. -/
theorem c5_base64_roundtrip (bs : List Nat) (h : ∀ b ∈ bs, b < 256)
    (hlen : bs.length < 2 ^ 30) :
    (stepOut (writeBase64M bs (mkState [])) =
      some ((ctxWriteBase64 .bare bs).1)) ∧
    (∀ (rest : List Nat) (f : Nat),
      readBase64M ((base64EncodeAll bs).length + 1 + f)
        (mkState ((ctxWriteBase64 .bare bs).1 ++ rest)) =
        .ok bs (mkState rest)) ∧
    61 ∉ base64EncodeAll bs ∧
    (∀ a : Nat, (base64EncodeAll [a]).length = 2) ∧
    (∀ a b : Nat, (base64EncodeAll [a, b]).length = 3) ∧
    readBase64Core (base64EncodeAll bs ++ stdB64Pad bs) = bs ∧
    readBase64Core (base64EncodeAll bs) = bs := by
  have hle := base64EncodeAll_length_le bs
  have hsmall : ¬((base64EncodeAll bs).length > 2 ^ 32 - 1) := by omega
  refine ⟨?_, ?_, base64EncodeAll_no_pad bs h,
    fun a => by simp [base64EncodeAll, b64enc1],
    fun a b => by simp [base64EncodeAll, b64enc2],
    readBase64Core_encode_pad bs h hlen, readBase64Core_encode bs h⟩
  · have hwb : writeBase64M bs (mkState []) =
        if bs.length > 2 ^ 32 - 1 then
          Step.err .sizeLimit (emit [kJSONStringDelimiter] (mkState []))
        else .ok () (emit [kJSONStringDelimiter]
          (emit (base64EncodeAll bs) (emit [kJSONStringDelimiter]
            (mkState [])))) := rfl
    rw [hwb, if_neg (by omega)]
    simp [stepOut, emit, mkState, ctxWriteBase64, ctxWriteNext]
  · intro rest f
    have hw : (ctxWriteBase64 .bare bs).1 ++ rest =
        34 :: (base64EncodeAll bs ++ 34 :: rest) := by
      simp [ctxWriteBase64, ctxWriteNext, kJSONStringDelimiter]
    rw [hw]
    have h1 : readBase64M ((base64EncodeAll bs).length + 1 + f)
        (mkState (34 :: (base64EncodeAll bs ++ 34 :: rest))) =
        (readStringLoop ((base64EncodeAll bs).length + 1 + f) [] []
          (mkState (base64EncodeAll bs ++ 34 :: rest))).bind fun tmp s2 =>
          if tmp.length > 2 ^ 32 - 1 then .err .sizeLimit s2
          else .ok (readBase64Core tmp) s2 := rfl
    rw [h1, scanPlain (base64EncodeAll bs) (base64EncodeAll_plain bs h) f []
      rest]
    simp only [Step.bind, List.nil_append]
    rw [if_neg hsmall, readBase64Core_encode bs h]

/-- Witness for C5 at the bytes `[1, 2, 3, 4]`: the wire round trip
through `writeBase64`/`readBase64` returns them (both hypotheses are
discharged by computation at this input). -/
theorem c5_base64_roundtrip_witness :
    readBase64M ((base64EncodeAll [1, 2, 3, 4]).length + 1 + 0)
      (mkState ((ctxWriteBase64 .bare [1, 2, 3, 4]).1 ++ [])) =
      .ok [1, 2, 3, 4] (mkState []) :=
  (c5_base64_roundtrip [1, 2, 3, 4] (by decide) (by decide)).2.1 [] 0

end ThriftJSON
